import Mathlib

/-!
Verification development for the payment-data-analytics repository.

The repository ships two DuckDB-backed implementations of the class
PaymentAnalytics:

  * src/src/payment_intelligence/etl_logic.py  -- the full engine; embedded
    below in namespace Engine.
  * src/payment_intelligence/etl_logic.py      -- the optimized deployment
    copy used by the Streamlit app; embedded below in namespace EngineOpt.

The SQL queries are embedded shallowly: tables become lists of records,
DATE values become day indices (days since 1970-01-01, as in DuckDB),
DECIMAL and FLOAT values become rationals, SQL NULL becomes Option, and
GROUP BY becomes dedup of the key list followed by a filter per key.
ORDER BY and LIMIT clauses are kept via an insertion sort and take.
-/

/-! ## Calendar arithmetic

DuckDB DATE values are modelled as day indices (days since 1970-01-01).
The conversions below follow the standard civil-calendar algorithms, so
DATE_TRUNC(month, d), DATE_DIFF(month, a, b) and date minus INTERVAL k
months are exact.
-/

namespace Calendar

/-- Number of days in a given month of the proleptic Gregorian calendar. -/
def daysInMonth (y m : Int) : Int :=
  if m = 2 then (if y % 4 = 0 ∧ (y % 100 ≠ 0 ∨ y % 400 = 0) then 29 else 28)
  else if m = 4 ∨ m = 6 ∨ m = 9 ∨ m = 11 then 30 else 31

/-- Convert a day index (days since 1970-01-01) to a civil date (year, month, day). -/
def civilFromDays (z0 : Int) : Int × Int × Int :=
  let z := z0 + 719468
  let era := (if 0 ≤ z then z else z - 146096).tdiv 146097
  let doe := z - era * 146097
  let yoe := (doe - doe.tdiv 1460 + doe.tdiv 36524 - doe.tdiv 146096).tdiv 365
  let y := yoe + era * 400
  let doy := doe - (365 * yoe + yoe.tdiv 4 - yoe.tdiv 100)
  let mp := (5 * doy + 2).tdiv 153
  let d := doy - (153 * mp + 2).tdiv 5 + 1
  let m := if mp < 10 then mp + 3 else mp - 9
  (if m ≤ 2 then y + 1 else y, m, d)

/-- Convert a civil date (year, month, day) to a day index (days since 1970-01-01). -/
def daysFromCivil (y m d : Int) : Int :=
  let y1 := if m ≤ 2 then y - 1 else y
  let era := (if 0 ≤ y1 then y1 else y1 - 399).tdiv 400
  let yoe := y1 - era * 400
  let mp := if 2 < m then m - 3 else m + 9
  let doy := (153 * mp + 2).tdiv 5 + d - 1
  let doe := yoe * 365 + yoe.tdiv 4 - yoe.tdiv 100 + doy
  era * 146097 + doe - 719468

/-- Absolute month number of a day index, counting months since year 0. -/
def monthIndex (z : Int) : Int :=
  let c := civilFromDays z
  12 * c.1 + (c.2.1 - 1)

/-- DATE_TRUNC(month, d): the day index of the first day of the month of d. -/
def dateTruncMonth (z : Int) : Int :=
  let c := civilFromDays z
  daysFromCivil c.1 c.2.1 1

/-- DuckDB date minus INTERVAL of k months: shift the month, clamping the day. -/
def subMonths (z : Int) (k : Int) : Int :=
  let c := civilFromDays z
  let t := 12 * c.1 + (c.2.1 - 1) - k
  let y2 := t.fdiv 12
  let m2 := t.emod 12 + 1
  let d2 := min c.2.2 (daysInMonth y2 m2)
  daysFromCivil y2 m2 d2

end Calendar

/-- DuckDB ROUND(x, s) on DECIMAL values: round half away from zero at scale s. -/
def roundScale (s : Nat) (x : Rat) : Rat :=
  let p : Rat := (10 : Rat) ^ s
  (if 0 ≤ x then (((x * p + 1 / 2).floor : Int) : Rat)
   else -((((-x) * p + 1 / 2).floor : Int) : Rat)) / p

/-- Insert an element into a list directly before the first position whose
element does not have to precede it, for the ORDER BY model below. -/
def orderedInsertB (le : α → α → Bool) (a : α) : List α → List α
  | [] => [a]
  | b :: l => if le a b then a :: b :: l else b :: orderedInsertB le a l

/-- Insertion sort under a Bool comparator. SQL ORDER BY leaves the relative
order of ties unspecified, so any sort realising the comparator is a valid
model; this one is structurally recursive. -/
def sortByB (le : α → α → Bool) : List α → List α
  | [] => []
  | a :: l => orderedInsertB le a (sortByB le l)

/-! ## Data model

The three canonical tables (section 3 of the spec). Column types follow the
loaded DuckDB schema: dates are day indices, amounts are rationals standing
for DECIMAL(10,2) values, the nullable transactions.country is an Option.
Status and gateway columns are plain strings, as in the CSV data.
-/

structure User where
  user_id : Nat
  country : String
  signup_date : Int
  is_anonymous : Bool
deriving DecidableEq

structure Subscription where
  sub_id : Nat
  user_id : Nat
  plan_type : String
  mrr_amount : Rat
  status : String
  start_date : Int
deriving DecidableEq

structure Transaction where
  tx_id : Nat
  sub_id : Nat
  gateway : String
  currency : String
  status : String
  error_code : Option String
  tx_date : Int
  amount : Rat
  country : Option String
deriving DecidableEq

structure Snapshot where
  users : List User
  subscriptions : List Subscription
  transactions : List Transaction
deriving DecidableEq

namespace Engine

/-- MAX(tx_date) over the transactions table; none when the table is empty. -/
def maxTxDate (txs : List Transaction) : Option Int :=
  (txs.map (fun t => t.tx_date)).max?

/-- Transactions with tx_date at least MAX(tx_date) minus the given number of
days. This is the CTE date_range joined back against transactions; with an
empty table the cross join yields no rows. -/
def windowTxs (days : Int) (txs : List Transaction) : List Transaction :=
  match maxTxDate txs with
  | none => []
  | some m => txs.filter (fun t => decide (m - days ≤ t.tx_date))

/-- Count of transactions with the given status. -/
def countStatus (s : String) (l : List Transaction) : Nat :=
  l.countP (fun t => decide (t.status = s))

/-- COALESCE(country, Unknown) grouping key of a transaction. -/
def pairKey (t : Transaction) : String × String :=
  (t.gateway, t.country.getD "Unknown")

/-- Result row of payment_acceptance_rate_by_gateway. -/
structure GatewayRow where
  gateway : String
  country : String
  total_attempts : Nat
  successful_txs : Nat
  soft_declines : Nat
  hard_declines : Nat
  acceptance_rate_pct : Rat
  soft_decline_rate_pct : Rat
  hard_decline_rate_pct : Rat
deriving DecidableEq

/-- payment_acceptance_rate_by_gateway (src/src engine): 90-day window anchored
at MAX(tx_date), grouped by gateway and COALESCE(country, Unknown), HAVING
COUNT at least min_transactions, with percentages rounded to 2 decimals,
ordered by attempts descending then acceptance rate ascending. -/
def payment_acceptance_rate_by_gateway (min_transactions : Nat)
    (txs : List Transaction) : List GatewayRow :=
  let wtxs := windowTxs 90 txs
  let keys := (wtxs.map pairKey).dedup
  let rows := keys.filterMap (fun k =>
    let grp := wtxs.filter (fun t => decide (pairKey t = k))
    let n := grp.length
    if min_transactions ≤ n then
      some { gateway := k.1, country := k.2, total_attempts := n,
             successful_txs := countStatus "Success" grp,
             soft_declines := countStatus "Soft Decline" grp,
             hard_declines := countStatus "Hard Decline" grp,
             acceptance_rate_pct :=
               roundScale 2 ((countStatus "Success" grp : Rat) / (n : Rat) * 100),
             soft_decline_rate_pct :=
               roundScale 2 ((countStatus "Soft Decline" grp : Rat) / (n : Rat) * 100),
             hard_decline_rate_pct :=
               roundScale 2 ((countStatus "Hard Decline" grp : Rat) / (n : Rat) * 100) }
    else none)
  sortByB (fun a b =>
    decide (b.total_attempts < a.total_attempts ∨
      (a.total_attempts = b.total_attempts ∧ a.acceptance_rate_pct ≤ b.acceptance_rate_pct))) rows

/-- Global baseline acceptance rate of detect_gateway_friction: AVG over the
90-day window of CASE WHEN status = Success THEN 1.0 ELSE 0.0 END. The SQL
AVG of an empty window is NULL; in that case the stats CTE is empty as well,
so no row ever reads the baseline and the default value 0 here is inert. -/
def overall_acceptance_rate (txs : List Transaction) : Rat :=
  let w := windowTxs 90 txs
  if w.length = 0 then 0 else (countStatus "Success" w : Rat) / (w.length : Rat)

/-- Correlated subquery of detect_gateway_friction: the top 3 most frequent
error codes of non-Success transactions of the pair (over the whole table,
not the window), aggregated with STRING_AGG. The source ORDER BY cnt DESC
leaves ties unspecified; the model keeps first-appearance order among ties
(the insertion sort keeps it). STRING_AGG skips NULL codes and returns NULL when
nothing is aggregated. -/
def top3_error_codes (g c : String) (txs : List Transaction) : Option String :=
  let failed := txs.filter (fun t =>
    decide (t.gateway = g ∧ t.country.getD "Unknown" = c ∧ t.status ≠ "Success"))
  let keys := (failed.map (fun t => t.error_code)).dedup
  let counted := keys.map (fun e => (e, failed.countP (fun t => decide (t.error_code = e))))
  let sorted := sortByB (fun a b => decide (b.2 ≤ a.2)) counted
  match (sorted.take 3).filterMap (fun p => p.1) with
  | [] => none
  | e :: es => some (es.foldl (fun acc x => acc ++ ", " ++ x) e)

/-- Result row of detect_gateway_friction. -/
structure FrictionRow where
  gateway : String
  country : String
  attempts : Nat
  successes : Nat
  acceptance_rate_pct : Rat
  baseline_rate_pct : Rat
  variance_from_baseline : Rat
  common_errors : Option String
  friction_flag : String
deriving DecidableEq

/-- detect_gateway_friction (src/src engine): per (gateway, COALESCE(country,
Unknown)) pair with at least 50 attempts in the 90-day window, the rounded
acceptance rate, the global baseline, the variance, the top error codes and
the CASE classification against baseline minus 10 and baseline minus 5. -/
def detect_gateway_friction (txs : List Transaction) : List FrictionRow :=
  let wtxs := windowTxs 90 txs
  let b := overall_acceptance_rate txs
  let keys := (wtxs.map pairKey).dedup
  let rows := keys.filterMap (fun k =>
    let grp := wtxs.filter (fun t => decide (pairKey t = k))
    let n := grp.length
    if 50 ≤ n then
      let acc := roundScale 2 ((countStatus "Success" grp : Rat) / (n : Rat) * 100)
      some { gateway := k.1, country := k.2, attempts := n,
             successes := countStatus "Success" grp,
             acceptance_rate_pct := acc,
             baseline_rate_pct := roundScale 2 (b * 100),
             variance_from_baseline := roundScale 2 (acc - b * 100),
             common_errors := top3_error_codes k.1 k.2 txs,
             friction_flag :=
               if acc < b * 100 - 10 then "High Friction"
               else if acc < b * 100 - 5 then "Medium Friction"
               else "Low Friction" }
    else none)
  sortByB (fun a b =>
    decide (a.variance_from_baseline < b.variance_from_baseline ∨
      (a.variance_from_baseline = b.variance_from_baseline ∧ b.attempts ≤ a.attempts))) rows

/-- Result row of calculate_monthly_churn_rate (src/src engine). The two
rates carry the NULLIF(total_subs, 0) guard as an Option. -/
structure ChurnRow where
  cohort_month : Int
  total_subs : Nat
  churned_subs : Nat
  active_subs : Nat
  past_due_subs : Nat
  churn_rate_pct : Option Rat
  retention_rate_pct : Option Rat
deriving DecidableEq

/-- Cohorts CTE of calculate_monthly_churn_rate: users joined with their
subscriptions, keyed by DATE_TRUNC(month, signup_date); each row keeps the
sub_id and subscription status. -/
def churnCohortRows (snap : Snapshot) : List (Int × Nat × String) :=
  snap.users.flatMap (fun u =>
    (snap.subscriptions.filter (fun s => decide (s.user_id = u.user_id))).map
      (fun s => (Calendar.dateTruncMonth u.signup_date, s.sub_id, s.status)))

/-- calculate_monthly_churn_rate (src/src engine): per signup cohort month,
COUNT(DISTINCT sub_id), the three status counts, and the two rates rounded
to 2 decimals with a NULLIF guard; ordered by cohort month descending,
LIMIT 24. -/
def calculate_monthly_churn_rate (snap : Snapshot) : List ChurnRow :=
  let rows := churnCohortRows snap
  let keys := (rows.map (fun r => r.1)).dedup
  let table := keys.map (fun m =>
    let grp := rows.filter (fun r => decide (r.1 = m))
    let total := ((grp.map (fun r => r.2.1)).dedup).length
    let churned := grp.countP (fun r => decide (r.2.2 = "Churned"))
    let active := grp.countP (fun r => decide (r.2.2 = "Active"))
    let pastDue := grp.countP (fun r => decide (r.2.2 = "Past Due"))
    let row : ChurnRow :=
      { cohort_month := m, total_subs := total, churned_subs := churned,
        active_subs := active, past_due_subs := pastDue,
        churn_rate_pct := if total = 0 then none
          else some (roundScale 2 ((churned : Rat) / (total : Rat) * 100)),
        retention_rate_pct := if total = 0 then none
          else some (roundScale 2 ((active : Rat) / (total : Rat) * 100)) }
    row)
  (sortByB (fun a b => decide (b.cohort_month ≤ a.cohort_month)) table).take 24

/-- Cohort sizes CTE of cohort_retention_analysis: COUNT(DISTINCT user_id)
of the users whose signup month truncates to the given cohort month. This is
also, word for word, the size at formation that sections 4.2 and 8 of the
spec assign to a cohort. -/
def cohort_size (users : List User) (m : Int) : Nat :=
  (((users.filter (fun u => decide (Calendar.dateTruncMonth u.signup_date = m))).map
    (fun u => u.user_id)).dedup).length

/-- CTE user_transaction_months: DISTINCT (DATE_TRUNC(month, tx_date),
user_id) pairs of Success transactions, joined to subscriptions to obtain
the user. -/
def user_transaction_months (snap : Snapshot) : List (Int × Nat) :=
  ((snap.transactions.filter (fun t => decide (t.status = "Success"))).flatMap (fun t =>
    (snap.subscriptions.filter (fun s => decide (s.sub_id = t.sub_id))).map
      (fun s => (Calendar.dateTruncMonth t.tx_date, s.user_id)))).dedup

/-- Join underlying retention_by_month: cohort_base users matched with their
user_transaction_months entries at a month offset between 0 and 12. The
WHERE utm.transaction_month IS NOT NULL clause of the source discards the
unmatched rows of the LEFT JOIN, so only matched rows remain, as here. Each
row is (cohort_month, months_since_signup, user_id). -/
def retentionJoinRows (snap : Snapshot) : List (Int × Int × Nat) :=
  snap.users.flatMap (fun u =>
    ((user_transaction_months snap).filter (fun p =>
      decide (p.2 = u.user_id ∧
        0 ≤ Calendar.monthIndex p.1 -
            Calendar.monthIndex (Calendar.dateTruncMonth u.signup_date) ∧
        Calendar.monthIndex p.1 -
            Calendar.monthIndex (Calendar.dateTruncMonth u.signup_date) ≤ 12))).map
      (fun p => (Calendar.dateTruncMonth u.signup_date,
        Calendar.monthIndex p.1 -
          Calendar.monthIndex (Calendar.dateTruncMonth u.signup_date),
        u.user_id)))

/-- Result row of cohort_retention_analysis (src/src engine). -/
structure RetentionRow where
  cohort_month : Int
  months_since_signup : Int
  retained_users : Nat
  cohort_size : Nat
  retention_rate_pct : Option Rat
deriving DecidableEq

/-- cohort_retention_analysis (src/src engine): grouped matched join rows,
COUNT(DISTINCT user_id) as retained_users against the fixed cohort size,
rate rounded to 1 decimal under a NULLIF guard, restricted to cohort months
at least CURRENT_DATE minus cohort_months months (the one place the source
uses the wall clock, passed here as today), ordered by cohort then offset. -/
def cohort_retention_analysis (cohort_months : Int) (today : Int)
    (snap : Snapshot) : List RetentionRow :=
  let rows := retentionJoinRows snap
  let keys := (rows.map (fun r => (r.1, r.2.1))).dedup
  let table := keys.map (fun k =>
    let grp := rows.filter (fun r => decide ((r.1, r.2.1) = k))
    let retained := ((grp.map (fun r => r.2.2)).dedup).length
    let size := cohort_size snap.users k.1
    let row : RetentionRow :=
      { cohort_month := k.1, months_since_signup := k.2,
        retained_users := retained, cohort_size := size,
        retention_rate_pct := if size = 0 then none
          else some (roundScale 1 ((retained : Rat) / (size : Rat) * 100)) }
    row)
  let inRange := table.filter (fun r =>
    decide (Calendar.subMonths today cohort_months ≤ r.cohort_month))
  sortByB (fun a b =>
    decide (a.cohort_month < b.cohort_month ∨
      (a.cohort_month = b.cohort_month ∧ a.months_since_signup ≤ b.months_since_signup))) inRange

/-- One row of the combined_revenue CTE of revenue_reconciliation: either a
cash row (zero booked columns) or a booked row (zero cash columns). -/
structure CombinedRow where
  month : Int
  cash_collected : Rat
  booked_revenue : Rat
  successful_payments : Nat
  total_attempts : Nat
  active_subscriptions : Nat
deriving DecidableEq

/-- Success transactions of the snapshot. -/
def successTxs (snap : Snapshot) : List Transaction :=
  snap.transactions.filter (fun t => decide (t.status = "Success"))

/-- Subscriptions with status Active or Past Due, the booked side of
revenue_reconciliation. -/
def qualifyingSubs (snap : Snapshot) : List Subscription :=
  snap.subscriptions.filter (fun s => decide (s.status = "Active" ∨ s.status = "Past Due"))

/-- Months carrying at least one Success transaction. -/
def cashMonths (snap : Snapshot) : List Int :=
  ((successTxs snap).map (fun t => Calendar.dateTruncMonth t.tx_date)).dedup

/-- Months carrying at least one Active or Past Due subscription start. -/
def bookedMonths (snap : Snapshot) : List Int :=
  ((qualifyingSubs snap).map (fun s => Calendar.dateTruncMonth s.start_date)).dedup

/-- combined_revenue CTE: UNION ALL of the monthly cash rows (booked columns
zeroed) and the monthly booked rows (cash columns zeroed). -/
def combined_revenue (snap : Snapshot) : List CombinedRow :=
  let cashRows := (cashMonths snap).map (fun m =>
    let grp := (successTxs snap).filter (fun t => decide (Calendar.dateTruncMonth t.tx_date = m))
    let row : CombinedRow :=
      { month := m, cash_collected := (grp.map (fun t => t.amount)).sum,
        booked_revenue := 0, successful_payments := grp.length,
        total_attempts := grp.length, active_subscriptions := 0 }
    row)
  let bookedRows := (bookedMonths snap).map (fun m =>
    let grp := (qualifyingSubs snap).filter (fun s => decide (Calendar.dateTruncMonth s.start_date = m))
    let row : CombinedRow :=
      { month := m, cash_collected := 0,
        booked_revenue := (grp.map (fun s => s.mrr_amount)).sum,
        successful_payments := 0, total_attempts := 0,
        active_subscriptions := ((grp.map (fun s => s.sub_id)).dedup).length }
    row)
  cashRows ++ bookedRows

/-- Result row of revenue_reconciliation (src/src engine). The variance
percentage carries the NULLIF(booked_revenue, 0) guard as an Option. -/
structure ReconRow where
  month : Int
  cash_collected : Rat
  booked_revenue : Rat
  variance : Rat
  variance_pct : Option Rat
  successful_payments : Nat
  total_attempts : Nat
  active_subscriptions : Nat
deriving DecidableEq

/-- monthly_totals CTE followed by the outer SELECT of revenue_reconciliation:
per month, the column sums over combined_revenue, variance and the guarded
variance percentage. The WHERE month IS NOT NULL clause of the source is a
tautology here because dates are never NULL in the model. -/
def monthly_totals (snap : Snapshot) : List ReconRow :=
  let rows := combined_revenue snap
  let keys := (rows.map (fun r => r.month)).dedup
  keys.map (fun m =>
    let grp := rows.filter (fun r => decide (r.month = m))
    let cash := (grp.map (fun r => r.cash_collected)).sum
    let booked := (grp.map (fun r => r.booked_revenue)).sum
    let row : ReconRow :=
      { month := m, cash_collected := cash, booked_revenue := booked,
        variance := cash - booked,
        variance_pct := if booked = 0 then none
          else some (roundScale 2 ((cash - booked) / booked * 100)),
        successful_payments := (grp.map (fun r => r.successful_payments)).sum,
        total_attempts := (grp.map (fun r => r.total_attempts)).sum,
        active_subscriptions := (grp.map (fun r => r.active_subscriptions)).sum }
    row)

/-- revenue_reconciliation (src/src engine): monthly totals ordered by month
descending, LIMIT 12. -/
def revenue_reconciliation (snap : Snapshot) : List ReconRow :=
  (sortByB (fun a b => decide (b.month ≤ a.month)) (monthly_totals snap)).take 12

/-- Edge of the Sankey flow table. -/
structure SankeyEdge where
  source : String
  target : String
  value : Nat
deriving DecidableEq

/-- Country filter of get_sankey_data: the SQL predicate arg IS NULL OR
country = arg keeps everything when the filter is NULL and otherwise keeps
exact matches only, dropping NULL countries. -/
def sankeyScope (country_filter : Option String) (txs : List Transaction) :
    List Transaction :=
  match country_filter with
  | none => txs
  | some c => txs.filter (fun t => decide (t.country = some c))

/-- CASE mapping of a transaction status to its funnel stage label; NULL for
any status outside the three known ones (such rows are removed by the WHERE
target IS NOT NULL clause). -/
def statusLabel (s : String) : Option String :=
  if s = "Success" then some "Authorized"
  else if s = "Soft Decline" then some "Soft Decline"
  else if s = "Hard Decline" then some "Hard Decline"
  else none

/-- get_sankey_data (src/src engine): the three UNION ALL branches Attempt to
gateway, gateway to status label, Authorized to Settled, on the filtered
scope, ordered by value descending. The third branch is a plain aggregate,
so it emits its single row even when the scope is empty. -/
def get_sankey_data (country_filter : Option String) (txs : List Transaction) :
    List SankeyEdge :=
  let scope := sankeyScope country_filter txs
  let e1 := ((scope.map (fun t => t.gateway)).dedup).map (fun g =>
    ({ source := "Attempt", target := g,
       value := scope.countP (fun t => decide (t.gateway = g)) } : SankeyEdge))
  let keys2 := (scope.map (fun t => (t.gateway, t.status))).dedup
  let e2 := keys2.filterMap (fun k =>
    (statusLabel k.2).map (fun lbl =>
      ({ source := k.1, target := lbl,
         value := scope.countP (fun t => decide (t.gateway = k.1 ∧ t.status = k.2)) } : SankeyEdge)))
  let e3 := [({ source := "Authorized", target := "Settled",
                value := countStatus "Success" scope } : SankeyEdge)]
  sortByB (fun a b => decide (b.value ≤ a.value)) (e1 ++ e2 ++ e3)

/-- Trailing 30-day window of the executive payment success rate, anchored at
MAX(tx_date). -/
def execWindow (snap : Snapshot) : List Transaction :=
  windowTxs 30 snap.transactions

/-- Target month boundary of the executive churn rate: DATE_TRUNC(month,
MAX(tx_date)) minus one month; NULL when there are no transactions. -/
def execTargetMonth (snap : Snapshot) : Option Int :=
  (maxTxDate snap.transactions).map (fun m => Calendar.subMonths (Calendar.dateTruncMonth m) 1)

/-- Denominator subscriptions of the executive churn rate: start_date on or
before the target month and status among Active, Churned, Past Due. With a
NULL target month the comparison is never true and no row qualifies. -/
def execChurnDenomSubs (snap : Snapshot) : List Subscription :=
  match execTargetMonth snap with
  | none => []
  | some tm => snap.subscriptions.filter (fun s =>
      decide (s.start_date ≤ tm ∧
        (s.status = "Active" ∨ s.status = "Churned" ∨ s.status = "Past Due")))

/-- Numerator of the executive churn rate: Churned subscriptions with
start_date on or before the target month. -/
def execChurnedCount (snap : Snapshot) : Nat :=
  match execTargetMonth snap with
  | none => 0
  | some tm => snap.subscriptions.countP (fun s =>
      decide (s.status = "Churned" ∧ s.start_date ≤ tm))

/-- KPI bundle returned by executive_metrics (src/src engine). -/
structure ExecMetrics where
  mrr : Rat
  active_subscriptions : Nat
  payment_success_rate : Rat
  total_revenue : Rat
  churn_rate : Rat
  avg_transaction_value : Rat
deriving DecidableEq

/-- executive_metrics (src/src engine). Each SQL aggregate that can come back
NULL (empty window, zero denominator under NULLIF, no Success rows) is
defaulted to 0 exactly as the Python wrapper does; a SUM over an empty table
is NULL in SQL and the wrapper also turns it into 0, which coincides with
the empty list sum here. -/
def executive_metrics (snap : Snapshot) : ExecMetrics :=
  let activeSubs := snap.subscriptions.filter (fun s => decide (s.status = "Active"))
  let w := execWindow snap
  let succ := successTxs snap
  { mrr := (activeSubs.map (fun s => s.mrr_amount)).sum,
    active_subscriptions := ((activeSubs.map (fun s => s.sub_id)).dedup).length,
    payment_success_rate := if w.length = 0 then 0
      else roundScale 2 ((countStatus "Success" w : Rat) / (w.length : Rat) * 100),
    total_revenue := (succ.map (fun t => t.amount)).sum,
    churn_rate := if (execChurnDenomSubs snap).length = 0 then 0
      else roundScale 2 ((execChurnedCount snap : Rat) /
        ((execChurnDenomSubs snap).length : Rat) * 100),
    avg_transaction_value := if succ.length = 0 then 0
      else roundScale 2 ((succ.map (fun t => t.amount)).sum / (succ.length : Rat)) }

/-- Input file of the loader model: whether the file exists on disk, which
columns its CSV carries, and how many data rows it has. The CSV parsing and
type coercion mechanics are outside the engine per section 1 of the spec;
this model keeps exactly what the load contract checks can observe. -/
structure CsvFile where
  present : Bool
  cols : List String
  rowCount : Nat
deriving DecidableEq

/-- Failure modes of load_data in the src/src engine: the explicit
FileNotFoundError raised for a missing users.csv, and the generic DuckDB
exception raised when read_csv_auto cannot open a file or the CREATE TABLE
SELECT names a column the CSV does not have. No class named SchemaError or
ValidationError exists anywhere in the repository. -/
inductive V1LoadError where
  | fileNotFoundError
  | duckdbError
deriving DecidableEq

/-- Columns the src/src loader SELECTs from users.csv. -/
def requiredUserCols : List String :=
  ["user_id", "country", "signup_date", "is_anonymous"]

/-- Columns the src/src loader SELECTs from subscriptions.csv. -/
def requiredSubCols : List String :=
  ["sub_id", "user_id", "plan_type", "mrr_amount", "status", "start_date"]

/-- Columns the src/src loader SELECTs from transactions.csv. -/
def requiredTxCols : List String :=
  ["tx_id", "sub_id", "gateway", "currency", "status", "error_code", "tx_date", "amount", "country"]

/-- load_data (src/src engine): an explicit existence check for users.csv
only, then three CREATE TABLE AS SELECT statements whose named columns must
all be present in the files; there is no emptiness check of any table. -/
def load_data (users subs txs : CsvFile) : Except V1LoadError Unit :=
  if users.present = false then .error .fileNotFoundError
  else if (requiredUserCols.all (fun c => users.cols.contains c)) = false then
    .error .duckdbError
  else if subs.present = false then .error .duckdbError
  else if (requiredSubCols.all (fun c => subs.cols.contains c)) = false then
    .error .duckdbError
  else if txs.present = false then .error .duckdbError
  else if (requiredTxCols.all (fun c => txs.cols.contains c)) = false then
    .error .duckdbError
  else .ok ()

end Engine

/-- Retained-user count as worded by the claim for cohort_retention_analysis:
the number of distinct users assigned to cohort month m by signup date that
have at least one Success transaction, owned through one of their
subscriptions, whose transaction month minus the cohort month equals k. This
definition follows the words of the spec, to be compared with the engine. -/
def spec_retained_users (snap : Snapshot) (m k : Int) : Nat :=
  (((snap.users.filter (fun u =>
      decide (Calendar.dateTruncMonth u.signup_date = m) &&
      snap.transactions.any (fun t =>
        decide (t.status = "Success") &&
        snap.subscriptions.any (fun s =>
          decide (s.sub_id = t.sub_id ∧ s.user_id = u.user_id)) &&
        decide (Calendar.monthIndex (Calendar.dateTruncMonth t.tx_date) -
          Calendar.monthIndex m = k)))).map
    (fun u => u.user_id)).dedup).length

namespace EngineOpt

/-- KPI bundle returned by executive_metrics in the deployment copy. -/
structure ExecMetrics where
  active_subscriptions : Nat
  mrr : Rat
  avg_transaction_value : Rat
  payment_success_rate : Rat
  churn_rate : Rat
deriving DecidableEq

/-- Transactions the deployment executive_metrics looks at: tx_date at least
CURRENT_DATE minus 30 days. The wall-clock CURRENT_DATE is passed in as
today. -/
def recentTxs (today : Int) (txs : List Transaction) : List Transaction :=
  txs.filter (fun t => decide (today - 30 ≤ t.tx_date))

/-- executive_metrics (deployment copy): Active counts and MRR, the average
Success amount and the success rate over the trailing window anchored at the
wall clock, and the all-time Cancelled share as churn; the NULLIF guards and
the Python or-0 defaults turn every NULL into 0. -/
def executive_metrics (today : Int) (snap : Snapshot) : ExecMetrics :=
  let act := snap.subscriptions.filter (fun s => decide (s.status = "Active"))
  let recent := recentTxs today snap.transactions
  let recentSucc := recent.filter (fun t => decide (t.status = "Success"))
  let avgTx : Option Rat := if recentSucc.length = 0 then none
    else some ((recentSucc.map (fun t => t.amount)).sum / (recentSucc.length : Rat))
  let succRate : Option Rat := if recent.length = 0 then none
    else some ((recentSucc.length : Rat) / (recent.length : Rat) * 100)
  let churn : Option Rat := if snap.subscriptions.length = 0 then none
    else some ((snap.subscriptions.countP (fun s => decide (s.status = "Cancelled")) : Rat) /
      (snap.subscriptions.length : Rat) * 100)
  { active_subscriptions := act.length,
    mrr := (act.map (fun s => s.mrr_amount)).sum,
    avg_transaction_value := avgTx.getD 0,
    payment_success_rate := succRate.getD 0,
    churn_rate := churn.getD 0 }

/-- Result row of calculate_monthly_churn_rate in the deployment copy. There
is no Active count: retention is literally 100 minus the churn rate. -/
structure ChurnRow where
  cohort_month : Int
  total_subs : Nat
  churned : Nat
  churn_rate_pct : Option Rat
  retention_rate_pct : Option Rat
deriving DecidableEq

/-- calculate_monthly_churn_rate (deployment copy): subscriptions of the last
12 wall-clock months grouped by start month; churn is the Cancelled share
and retention is 100 minus churn, both unrounded FLOAT values under a NULLIF
guard; ordered by cohort month ascending. -/
def calculate_monthly_churn_rate (today : Int) (snap : Snapshot) : List ChurnRow :=
  let subs := snap.subscriptions.filter (fun s =>
    decide (Calendar.subMonths today 12 ≤ s.start_date))
  let keys := (subs.map (fun s => Calendar.dateTruncMonth s.start_date)).dedup
  let table := keys.map (fun m =>
    let grp := subs.filter (fun s => decide (Calendar.dateTruncMonth s.start_date = m))
    let total := grp.length
    let churned := grp.countP (fun s => decide (s.status = "Cancelled"))
    let row : ChurnRow :=
      { cohort_month := m, total_subs := total, churned := churned,
        churn_rate_pct := if total = 0 then none
          else some ((churned : Rat) / (total : Rat) * 100),
        retention_rate_pct := if total = 0 then none
          else some (100 - (churned : Rat) / (total : Rat) * 100) }
    row)
  sortByB (fun a b => decide (a.cohort_month ≤ b.cohort_month)) table

/-- Result row of cohort_retention_analysis in the deployment copy. -/
structure RetentionRow where
  cohort_month : Int
  months_since_signup : Int
  retained_users : Nat
  retention_rate_pct : Option Rat
deriving DecidableEq

/-- Cohort assignments of the deployment retention query: one entry per
subscription of the last cohort_months wall-clock months, keyed by the
subscription start month, so a user can appear in several cohorts and users
without subscriptions appear in none. -/
def cohorts (cohort_months : Int) (today : Int) (snap : Snapshot) : List (Nat × Int) :=
  (snap.subscriptions.filter (fun s =>
    decide (Calendar.subMonths today cohort_months ≤ s.start_date))).map
    (fun s => (s.user_id, Calendar.dateTruncMonth s.start_date))

/-- sub_months CTE of the deployment retention query: Active or Cancelled
subscriptions joined to every cohort entry of the same user, carrying the
month offset between the cohort month and the subscription start month;
rows are (cohort_month, months_since_signup, user_id). -/
def sub_months (cohort_months : Int) (today : Int) (snap : Snapshot) :
    List (Int × Int × Nat) :=
  (snap.subscriptions.filter (fun s =>
    decide (s.status = "Active" ∨ s.status = "Cancelled"))).flatMap (fun s =>
    ((cohorts cohort_months today snap).filter (fun c => decide (c.1 = s.user_id))).map
      (fun c => (c.2,
        Calendar.monthIndex (Calendar.dateTruncMonth s.start_date) - Calendar.monthIndex c.2,
        s.user_id)))

/-- cohort_retention_analysis (deployment copy): grouped sub_months rows with
offsets between 0 and 12; the denominator is the FIRST_VALUE window count,
the distinct-user count of the smallest offset present for the cohort, and
there is no NULLIF guard (that count is at least 1 whenever a row exists);
ordered by cohort month descending then offset ascending. -/
def cohort_retention_analysis (cohort_months : Int) (today : Int)
    (snap : Snapshot) : List RetentionRow :=
  let inRange := (sub_months cohort_months today snap).filter (fun r =>
    decide (0 ≤ r.2.1 ∧ r.2.1 ≤ 12))
  let keys := (inRange.map (fun r => (r.1, r.2.1))).dedup
  let table := keys.map (fun k =>
    let grp := inRange.filter (fun r => decide ((r.1, r.2.1) = k))
    let retained := ((grp.map (fun r => r.2.2)).dedup).length
    let offsets := (inRange.filter (fun r => decide (r.1 = k.1))).map (fun r => r.2.1)
    let denom := match offsets.min? with
      | none => 0
      | some o =>
        (((inRange.filter (fun r => decide (r.1 = k.1 ∧ r.2.1 = o))).map
          (fun r => r.2.2)).dedup).length
    let row : RetentionRow :=
      { cohort_month := k.1, months_since_signup := k.2, retained_users := retained,
        retention_rate_pct := if denom = 0 then none
          else some ((retained : Rat) / (denom : Rat) * 100) }
    row)
  sortByB (fun a b =>
    decide (b.cohort_month < a.cohort_month ∨
      (a.cohort_month = b.cohort_month ∧ a.months_since_signup ≤ b.months_since_signup))) table

/-- Result row of revenue_reconciliation in the deployment copy: the FULL
OUTER JOIN leaves every cash column NULL on a booked-only month and the
booked column NULL on a cash-only month, and NULL propagates into variance
and variance_pct. -/
structure ReconRow where
  month : Int
  cash_collected : Option Rat
  booked_revenue : Option Rat
  variance : Option Rat
  variance_pct : Option Rat
  successful_payments : Option Nat
deriving DecidableEq

/-- revenue_reconciliation (deployment copy): monthly Success cash against
monthly Active MRR through a FULL OUTER JOIN on the month, ordered by month
descending, LIMIT 12. -/
def revenue_reconciliation (snap : Snapshot) : List ReconRow :=
  let succ := snap.transactions.filter (fun t => decide (t.status = "Success"))
  let act := snap.subscriptions.filter (fun s => decide (s.status = "Active"))
  let cashM := ((succ.map (fun t => Calendar.dateTruncMonth t.tx_date)).dedup)
  let bookM := ((act.map (fun s => Calendar.dateTruncMonth s.start_date)).dedup)
  let table := ((cashM ++ bookM).dedup).map (fun m =>
    let cg := succ.filter (fun t => decide (Calendar.dateTruncMonth t.tx_date = m))
    let bg := act.filter (fun s => decide (Calendar.dateTruncMonth s.start_date = m))
    let cash : Option Rat := if cg.length = 0 then none
      else some ((cg.map (fun t => t.amount)).sum)
    let booked : Option Rat := if bg.length = 0 then none
      else some ((bg.map (fun s => s.mrr_amount)).sum)
    let row : ReconRow :=
      { month := m, cash_collected := cash, booked_revenue := booked,
        variance := match cash, booked with
          | some c, some b => some (c - b)
          | _, _ => none,
        variance_pct := match cash, booked with
          | some c, some b => if b = 0 then none else some ((c - b) / b * 100)
          | _, _ => none,
        successful_payments := if cg.length = 0 then none else some cg.length }
    row)
  (sortByB (fun a b => decide (b.month ≤ a.month)) table).take 12

/-- Failure mode of load_data in the deployment copy: every exception of the
try block is re-raised as a RuntimeError, including the ValueError of the
emptiness validation. -/
inductive V2LoadError where
  | runtimeError
deriving DecidableEq

/-- load_data (deployment copy): a no-op when data is already loaded,
otherwise SELECT * reads whatever columns the files have (a missing column
such as error_code is accepted silently), then the three row counts are
validated to be nonzero. -/
def load_data (already_loaded : Bool) (users subs txs : Engine.CsvFile) :
    Except V2LoadError Unit :=
  if already_loaded then .ok ()
  else if users.present = false ∨ subs.present = false ∨ txs.present = false then
    .error .runtimeError
  else if users.rowCount = 0 ∨ subs.rowCount = 0 ∨ txs.rowCount = 0 then
    .error .runtimeError
  else .ok ()

end EngineOpt

/-! ## Claim-side classification and concrete fixtures -/

/-- Friction classification exactly as the claim words it: a function of the
variance, the pair acceptance rate minus the global baseline acceptance
rate, with thresholds at minus 10 and minus 5. -/
def frictionClass (v : Rat) : String :=
  if v < -10 then "High Friction"
  else if v < -5 then "Medium Friction"
  else "Low Friction"

/-- Shorthand constructor for concrete transactions. -/
def mkTx (id sub : Nat) (g st : String) (ec : Option String) (d : Int)
    (amt : Rat) (c : Option String) : Transaction :=
  { tx_id := id, sub_id := sub, gateway := g, currency := "EUR", status := st,
    error_code := ec, tx_date := d, amount := amt, country := c }

/-- Shorthand constructor for concrete subscriptions. -/
def mkSub (id uid : Nat) (st : String) (d : Int) (mrr : Rat) : Subscription :=
  { sub_id := id, user_id := uid, plan_type := "Plus", mrr_amount := mrr,
    status := st, start_date := d }

/-- Shorthand constructor for concrete users. -/
def mkUser (id : Nat) (d : Int) : User :=
  { user_id := id, country := "DE", signup_date := d, is_anonymous := false }

/-- Concrete table of 50 Success transactions of the single pair (A, DE),
enough volume to clear the HAVING bound of detect_gateway_friction. -/
def txs50 : List Transaction :=
  List.replicate 50 (mkTx 1 1 "A" "Success" none 0 10 (some "DE"))

/-- Friction row the engine returns for the (A, DE) pair of txs50. -/
def rowC1 : Engine.FrictionRow :=
  { gateway := "A", country := "DE", attempts := 50, successes := 50,
    acceptance_rate_pct := 100, baseline_rate_pct := 100,
    variance_from_baseline := 0, common_errors := none,
    friction_flag := "Low Friction" }

/-- Snapshot with one Success and one Hard Decline transaction, both on day
0 (1970-01-01). -/
def sC2 : Snapshot :=
  { users := [], subscriptions := [],
    transactions := [mkTx 1 1 "A" "Success" none 0 10 (some "DE"),
                     mkTx 2 1 "A" "Hard Decline" (some "dnh") 0 10 (some "DE")] }

/-- Snapshot with one user signed up on 2024-01-15 whose single subscription
has one Success transaction on 2024-01-20 and no activity afterwards. -/
def sC3 : Snapshot :=
  { users := [mkUser 1 (Calendar.daysFromCivil 2024 1 15)],
    subscriptions := [mkSub 10 1 "Active" (Calendar.daysFromCivil 2024 1 15) 10],
    transactions := [mkTx 100 10 "A" "Success" none (Calendar.daysFromCivil 2024 1 20) 10 (some "DE")] }

/-- Wall-clock date 2024-06-01 used when querying sC3 and sC5. -/
def todayMid2024 : Int := Calendar.daysFromCivil 2024 6 1

/-- Snapshot whose single signup cohort holds three subscriptions, one of
them Churned, so the churn rate is 100 over 3. -/
def sC4 : Snapshot :=
  { users := [mkUser 1 (Calendar.daysFromCivil 2024 1 10)],
    subscriptions := [mkSub 11 1 "Churned" (Calendar.daysFromCivil 2024 1 10) 5,
                      mkSub 12 1 "Active" (Calendar.daysFromCivil 2024 1 12) 5,
                      mkSub 13 1 "Active" (Calendar.daysFromCivil 2024 1 15) 5],
    transactions := [] }

/-- Churn row the src/src engine returns for sC4. -/
def rC4 : Engine.ChurnRow :=
  { cohort_month := Calendar.daysFromCivil 2024 1 1, total_subs := 3,
    churned_subs := 1, active_subs := 2, past_due_subs := 0,
    churn_rate_pct := some (3333 / 100), retention_rate_pct := some (6667 / 100) }

/-- Snapshot with a single Past Due subscription started on 2024-05-10. -/
def sC4b : Snapshot :=
  { users := [mkUser 2 (Calendar.daysFromCivil 2024 5 1)],
    subscriptions := [mkSub 20 2 "Past Due" (Calendar.daysFromCivil 2024 5 10) 5],
    transactions := [] }

/-- Churn row the deployment engine returns for sC4b. -/
def rC4b : EngineOpt.ChurnRow :=
  { cohort_month := Calendar.daysFromCivil 2024 5 1, total_subs := 1, churned := 0,
    churn_rate_pct := some 0, retention_rate_pct := some 100 }

/-- Snapshot for the retention denominator: users A and B both signed up in
January 2024 (cohort size 2 at formation), A holding one Past Due
subscription, B holding an Active January subscription and an Active
February subscription; no transactions. -/
def sC5 : Snapshot :=
  { users := [mkUser 1 (Calendar.daysFromCivil 2024 1 5),
              mkUser 2 (Calendar.daysFromCivil 2024 1 8)],
    subscriptions := [mkSub 11 1 "Past Due" (Calendar.daysFromCivil 2024 1 15) 5,
                      mkSub 12 2 "Active" (Calendar.daysFromCivil 2024 1 10) 5,
                      mkSub 13 2 "Active" (Calendar.daysFromCivil 2024 2 20) 5],
    transactions := [] }

/-- Retention row the src/src engine returns for sC3. -/
def rC5w : Engine.RetentionRow :=
  { cohort_month := Calendar.daysFromCivil 2024 1 1, months_since_signup := 0,
    retained_users := 1, cohort_size := 1, retention_rate_pct := some 100 }

/-- Snapshot whose only month of data carries one Hard Decline transaction
and one Churned subscription: zero Success transactions and zero qualifying
subscriptions. -/
def sC6 : Snapshot :=
  { users := [],
    subscriptions := [mkSub 30 3 "Churned" (Calendar.daysFromCivil 2024 3 5) 7],
    transactions := [mkTx 200 30 "A" "Hard Decline" (some "dnh")
      (Calendar.daysFromCivil 2024 3 9) 4 (some "DE")] }

/-- Snapshot with one Active subscription (booked side only) in May 2024 and
no transactions. -/
def sC6b : Snapshot :=
  { users := [], subscriptions := [mkSub 40 4 "Active" (Calendar.daysFromCivil 2024 5 10) 9],
    transactions := [] }

/-- Reconciliation row the src/src engine returns for sC6b. -/
def rC6 : Engine.ReconRow :=
  { month := Calendar.daysFromCivil 2024 5 1, cash_collected := 0,
    booked_revenue := 9, variance := -9, variance_pct := some (-100),
    successful_payments := 0, total_attempts := 0, active_subscriptions := 1 }

/-- One-transaction table used to instantiate the Sankey and acceptance
theorems. -/
def txs1 : List Transaction :=
  [mkTx 300 30 "G" "Success" none 0 10 (some "DE")]

/-- Gateway row the src/src engine returns for txs1 at minimum 1. -/
def rW10 : Engine.GatewayRow :=
  { gateway := "G", country := "DE", total_attempts := 1, successful_txs := 1,
    soft_declines := 0, hard_declines := 0, acceptance_rate_pct := 100,
    soft_decline_rate_pct := 0, hard_decline_rate_pct := 0 }

/-- CSV file fixtures for the loader claims. -/
def userFileOk : Engine.CsvFile :=
  { present := true, cols := Engine.requiredUserCols, rowCount := 3 }

/-- Subscriptions file with all required columns and three rows. -/
def subFileOk : Engine.CsvFile :=
  { present := true, cols := Engine.requiredSubCols, rowCount := 3 }

/-- Transactions file with all required columns and three rows. -/
def txFileOk : Engine.CsvFile :=
  { present := true, cols := Engine.requiredTxCols, rowCount := 3 }

/-- Transactions file missing the error_code column. -/
def txFileNoErrorCode : Engine.CsvFile :=
  { present := true,
    cols := ["tx_id", "sub_id", "gateway", "currency", "status", "tx_date", "amount", "country"],
    rowCount := 3 }

/-- Users file that is present but empty. -/
def userFileEmpty : Engine.CsvFile :=
  { present := true, cols := Engine.requiredUserCols, rowCount := 0 }

/-- Subscriptions file that is present but empty. -/
def subFileEmpty : Engine.CsvFile :=
  { present := true, cols := Engine.requiredSubCols, rowCount := 0 }

/-- Transactions file that is present but empty. -/
def txFileEmpty : Engine.CsvFile :=
  { present := true, cols := Engine.requiredTxCols, rowCount := 0 }

/-- Empty snapshot: every denominator of the executive metrics is zero. -/
def sEmpty : Snapshot := { users := [], subscriptions := [], transactions := [] }

/-! ## Helper lemmas -/

/-- orderedInsertB permutes the inserted element onto the list. -/
theorem perm_orderedInsertB (le : α → α → Bool) (a : α) (l : List α) :
    (orderedInsertB le a l).Perm (a :: l) := by
  induction l with
  | nil => exact List.Perm.refl _
  | cons b l ih =>
    simp only [orderedInsertB]
    split
    · exact List.Perm.refl _
    · exact (ih.cons b).trans (List.Perm.swap a b l)

/-- sortByB permutes its input. -/
theorem perm_sortByB (le : α → α → Bool) (l : List α) :
    (sortByB le l).Perm l := by
  induction l with
  | nil => exact List.Perm.refl _
  | cons a l ih => exact (perm_orderedInsertB le a (sortByB le l)).trans (ih.cons a)

/-- Membership is invariant under sortByB. -/
theorem mem_sortByB {le : α → α → Bool} {a : α} {l : List α} :
    a ∈ sortByB le l ↔ a ∈ l :=
  (perm_sortByB le l).mem_iff

/-- CASE expression of detect_gateway_friction against thresholds baseline
minus 10 and baseline minus 5, rewritten as the claim-side classification of
the variance. -/
theorem friction_if_eq_class (acc b : Rat) :
    (if acc < b * 100 - 10 then "High Friction"
     else if acc < b * 100 - 5 then "Medium Friction"
     else "Low Friction") =
    frictionClass (acc - 100 * b) := by
  unfold frictionClass
  split_ifs <;> first | rfl | linarith

/-! ## Claims -/

section
/- The Batteries rational operations are marked irreducible for interactive
use; concrete evaluation in the proofs below needs them unfolded. -/
attribute [local semireducible] Rat.add Rat.sub Rat.mul Rat.inv

/-- C1: for every (gateway, country) pair row returned by
detect_gateway_friction, the friction_flag is the deterministic function of
variance, the pair acceptance rate minus the global baseline acceptance
rate: variance below minus 10 yields High Friction, variance in the band
from minus 10 up to minus 5 yields Medium Friction, anything else the low
label; and in particular a pair rate of 78 against a baseline of 90,
variance minus 12, is classified High Friction. -/
theorem C1_friction_flag_deterministic :
    (∀ txs r, r ∈ Engine.detect_gateway_friction txs →
      r.friction_flag =
        frictionClass (r.acceptance_rate_pct - 100 * Engine.overall_acceptance_rate txs)) ∧
    frictionClass ((78 : Rat) - 90) = "High Friction" := by
  constructor
  · intro txs r hr
    simp only [Engine.detect_gateway_friction, mem_sortByB,
      List.mem_filterMap] at hr
    obtain ⟨k, hk, hfk⟩ := hr
    split at hfk
    · simp only [Option.some.injEq] at hfk
      subst hfk
      exact friction_if_eq_class _ _
    · exact absurd hfk (by simp)
  · decide

set_option maxRecDepth 20000 in
/-- Witness for C1: on the concrete 50-transaction table the engine reports
the (A, DE) pair with acceptance 100 against baseline 100, and the theorem
identifies its flag with the classification of the variance 0. -/
theorem C1_friction_flag_deterministic_witness :
    rowC1 ∈ Engine.detect_gateway_friction txs50 ∧
    rowC1.friction_flag =
      frictionClass (rowC1.acceptance_rate_pct - 100 * Engine.overall_acceptance_rate txs50) :=
  ⟨by decide,
   C1_friction_flag_deterministic.1 txs50 rowC1 (by decide)⟩

/-- C2 (code bug): the deployment executive_metrics anchors its trailing
30-day window at the wall-clock CURRENT_DATE, not at the maximum observed
tx_date, so the very same snapshot sC2 reports payment success rate 50 when
queried on day 10 and 0 when queried on day 200. The src/src windows are
anchored at MAX(tx_date) as the claim says; the cited deployment copy is
not. -/
theorem C2_wall_clock_window_dependence :
    (EngineOpt.executive_metrics 10 sC2).payment_success_rate ≠
      (EngineOpt.executive_metrics 200 sC2).payment_success_rate := by
  decide

set_option maxRecDepth 8000 in
/-- C3 (code bug): on a snapshot whose January 2024 cohort has Success
activity only at offset 0, cohort_retention_analysis returns exactly one
row; the (cohort, offset) pairs with zero qualifying activity at offsets 1
to 12 are omitted entirely instead of being reported with retention 0,
because the WHERE clause on utm.transaction_month discards every unmatched
row of the LEFT JOIN. -/
theorem C3_zero_activity_offsets_omitted :
    Engine.cohort_retention_analysis 12 todayMid2024 sC3 =
      [{ cohort_month := Calendar.daysFromCivil 2024 1 1, months_since_signup := 0,
         retained_users := 1, cohort_size := 1, retention_rate_pct := some 100 }] := by
  decide

/-- C9: every rate of the executive metrics is null-safe. In the src/src
engine an empty 30-day window yields success rate 0, an empty churn
denominator yields churn 0, and no Success transactions yield average 0 and
total revenue 0; in the deployment copy an empty wall-clock window yields
success rate 0 and average 0, and an empty subscriptions table yields churn
0. No division by zero is ever evaluated: each guarded branch returns the
0 default of the Python wrapper instead. -/
theorem C9_exec_rates_null_safe :
    ∀ snap : Snapshot,
      (Engine.execWindow snap = [] →
        (Engine.executive_metrics snap).payment_success_rate = 0) ∧
      (Engine.execChurnDenomSubs snap = [] →
        (Engine.executive_metrics snap).churn_rate = 0) ∧
      (Engine.successTxs snap = [] →
        (Engine.executive_metrics snap).avg_transaction_value = 0 ∧
        (Engine.executive_metrics snap).total_revenue = 0) ∧
      (∀ today, EngineOpt.recentTxs today snap.transactions = [] →
        (EngineOpt.executive_metrics today snap).payment_success_rate = 0 ∧
        (EngineOpt.executive_metrics today snap).avg_transaction_value = 0) ∧
      (snap.subscriptions = [] →
        ∀ today, (EngineOpt.executive_metrics today snap).churn_rate = 0) := by
  intro snap
  refine ⟨fun h => ?_, fun h => ?_, fun h => ⟨?_, ?_⟩, fun today h => ⟨?_, ?_⟩,
    fun h today => ?_⟩ <;>
    simp [Engine.executive_metrics, EngineOpt.executive_metrics, h]

/-- Witness for C9: the empty snapshot has every denominator equal to zero
and every rate comes back 0. -/
theorem C9_exec_rates_null_safe_witness :
    (Engine.executive_metrics sEmpty).payment_success_rate = 0 ∧
    (Engine.executive_metrics sEmpty).churn_rate = 0 ∧
    (Engine.executive_metrics sEmpty).avg_transaction_value = 0 ∧
    (EngineOpt.executive_metrics 0 sEmpty).payment_success_rate = 0 ∧
    (EngineOpt.executive_metrics 0 sEmpty).churn_rate = 0 :=
  ⟨(C9_exec_rates_null_safe sEmpty).1 (by decide),
   (C9_exec_rates_null_safe sEmpty).2.1 (by decide),
   ((C9_exec_rates_null_safe sEmpty).2.2.1 (by decide)).1,
   ((C9_exec_rates_null_safe sEmpty).2.2.2.1 0 (by decide)).1,
   (C9_exec_rates_null_safe sEmpty).2.2.2.2 (by decide) 0⟩

/-- C10: every row returned by payment_acceptance_rate_by_gateway satisfies
the HAVING bound, so with any min_transactions of at least 1 the attempt
count of a returned row is positive and the three unguarded percentage
divisions have a nonzero denominator. -/
theorem C10_min_transactions_positive_attempts :
    ∀ (min_transactions : Nat) (txs : List Transaction) (r : Engine.GatewayRow),
      1 ≤ min_transactions →
      r ∈ Engine.payment_acceptance_rate_by_gateway min_transactions txs →
      min_transactions ≤ r.total_attempts ∧ 0 < r.total_attempts := by
  intro mt txs r hmt hr
  simp only [Engine.payment_acceptance_rate_by_gateway, mem_sortByB,
    List.mem_filterMap] at hr
  obtain ⟨k, hk, hfk⟩ := hr
  split at hfk
  next hn =>
    simp only [Option.some.injEq] at hfk
    subst hfk
    exact ⟨hn, lt_of_lt_of_le Nat.zero_lt_one (le_trans hmt hn)⟩
  next => exact absurd hfk (by simp)

set_option maxRecDepth 20000 in
/-- Witness for C10: with min_transactions 1 on the one-transaction table
the returned row has one attempt, at least the minimum and positive. -/
theorem C10_min_transactions_positive_attempts_witness :
    1 ≤ rW10.total_attempts ∧ 0 < rW10.total_attempts :=
  C10_min_transactions_positive_attempts 1 txs1 rW10 (by decide)
    (by decide)


/-- C4 (corrected): every cohort row of calculate_monthly_churn_rate has a
positive subscription count (so the NULLIF guard never fires); in the
src/src engine the reported rates are churned over total and active over
total times 100 each rounded to two decimals, and in the deployment copy
the churn rate is the unrounded Cancelled share while the retention rate is
100 minus it, not the Active share. -/
theorem C4_churn_retention_formulas :
    (∀ snap r, r ∈ Engine.calculate_monthly_churn_rate snap →
      0 < r.total_subs ∧
      r.churn_rate_pct =
        some (roundScale 2 ((r.churned_subs : Rat) / (r.total_subs : Rat) * 100)) ∧
      r.retention_rate_pct =
        some (roundScale 2 ((r.active_subs : Rat) / (r.total_subs : Rat) * 100))) ∧
    (∀ today snap r, r ∈ EngineOpt.calculate_monthly_churn_rate today snap →
      0 < r.total_subs ∧
      r.churn_rate_pct = some ((r.churned : Rat) / (r.total_subs : Rat) * 100) ∧
      r.retention_rate_pct = some (100 - (r.churned : Rat) / (r.total_subs : Rat) * 100)) := by
  constructor
  · intro snap r hr
    simp only [Engine.calculate_monthly_churn_rate] at hr
    replace hr := List.mem_of_mem_take hr
    rw [mem_sortByB] at hr
    simp only [List.mem_map] at hr
    obtain ⟨m, hm, rfl⟩ := hr
    simp only [List.mem_dedup, List.mem_map] at hm
    obtain ⟨row0, hrow0, hkey⟩ := hm
    have hgrp : row0 ∈ (Engine.churnCohortRows snap).filter (fun q => decide (q.1 = m)) :=
      List.mem_filter.mpr ⟨hrow0, by simp [hkey]⟩
    have hpos : 0 < (((List.filter (fun q => decide (q.1 = m))
        (Engine.churnCohortRows snap)).map (fun q => q.2.1)).dedup).length :=
      List.length_pos.mpr (List.ne_nil_of_mem (List.mem_dedup.mpr
        (List.mem_map_of_mem _ hgrp)))
    refine ⟨hpos, ?_, ?_⟩ <;>
      simp [Nat.pos_iff_ne_zero.mp hpos]
  · intro today snap r hr
    simp only [EngineOpt.calculate_monthly_churn_rate] at hr
    rw [mem_sortByB] at hr
    simp only [List.mem_map] at hr
    obtain ⟨m, hm, rfl⟩ := hr
    simp only [List.mem_dedup, List.mem_map] at hm
    obtain ⟨s0, hs0, hkey⟩ := hm
    have hgrp : s0 ∈ (List.filter (fun s =>
        decide (Calendar.subMonths today 12 ≤ s.start_date)) snap.subscriptions).filter
        (fun s => decide (Calendar.dateTruncMonth s.start_date = m)) :=
      List.mem_filter.mpr ⟨hs0, by simp [hkey]⟩
    have hpos : 0 < ((List.filter (fun s =>
        decide (Calendar.subMonths today 12 ≤ s.start_date)) snap.subscriptions).filter
        (fun s => decide (Calendar.dateTruncMonth s.start_date = m))).length :=
      List.length_pos.mpr (List.ne_nil_of_mem hgrp)
    obtain ⟨hmem, hcond⟩ := List.mem_filter.mp hs0
    refine ⟨hpos, ?_, ?_⟩ <;>
      · simp [Nat.pos_iff_ne_zero.mp hpos]
        exact ⟨s0, hmem, hkey, by simpa using hcond⟩

/-- Witness for C4: the theorem instantiated on the two concrete snapshots
and their returned rows. -/
theorem C4_churn_retention_formulas_witness :
    (0 < rC4.total_subs ∧
     rC4.churn_rate_pct =
       some (roundScale 2 ((rC4.churned_subs : Rat) / (rC4.total_subs : Rat) * 100)) ∧
     rC4.retention_rate_pct =
       some (roundScale 2 ((rC4.active_subs : Rat) / (rC4.total_subs : Rat) * 100))) ∧
    (0 < rC4b.total_subs ∧
     rC4b.churn_rate_pct = some ((rC4b.churned : Rat) / (rC4b.total_subs : Rat) * 100) ∧
     rC4b.retention_rate_pct = some (100 - (rC4b.churned : Rat) / (rC4b.total_subs : Rat) * 100)) :=
  ⟨C4_churn_retention_formulas.1 sC4 rC4 (by decide),
   C4_churn_retention_formulas.2 todayMid2024 sC4b rC4b (by decide)⟩

set_option maxRecDepth 8000 in
/-- C4 counterexample: on sC4 the reported churn rate 33.33 is the rounded
value and differs from the exact ratio 100 over 3; on sC4b, whose only
subscription is Past Due, the deployment copy reports retention 100 even
though the Active count is 0, so retention is not active over total times
100. -/
theorem C4_exact_rate_equality_fails :
    ((Engine.calculate_monthly_churn_rate sC4).any (fun r =>
      decide (r.churn_rate_pct ≠
        some ((r.churned_subs : Rat) / (r.total_subs : Rat) * 100))) = true) ∧
    EngineOpt.calculate_monthly_churn_rate todayMid2024 sC4b = [rC4b] ∧
    sC4b.subscriptions.countP (fun s => decide (s.status = "Active")) = 0 ∧
    rC4b.retention_rate_pct ≠ some (((0 : Rat) / 1) * 100) :=
  ⟨by decide, by decide, by decide, by decide⟩


/-- C6 (corrected): in the src/src engine every reconciliation row satisfies
variance equals cash minus booked, and variance_pct is the NULL sentinel
exactly when booked_revenue is 0; the UNION ALL of zero-filled cash and
booked rows realises the outer union, so a month on only one side still
yields a monthly_totals row with the missing side equal to 0. A month on
neither side yields no row at all (see the counterexample). -/
theorem C6_reconciliation_outer_union :
    (∀ snap r, r ∈ Engine.revenue_reconciliation snap →
      r.variance = r.cash_collected - r.booked_revenue ∧
      (r.booked_revenue = 0 → r.variance_pct = none) ∧
      (r.booked_revenue ≠ 0 → r.variance_pct =
        some (roundScale 2 ((r.cash_collected - r.booked_revenue) / r.booked_revenue * 100)))) ∧
    (∀ snap m, m ∈ Engine.cashMonths snap → m ∉ Engine.bookedMonths snap →
      ∃ r ∈ Engine.monthly_totals snap, r.month = m ∧ r.booked_revenue = 0) ∧
    (∀ snap m, m ∈ Engine.bookedMonths snap → m ∉ Engine.cashMonths snap →
      ∃ r ∈ Engine.monthly_totals snap, r.month = m ∧ r.cash_collected = 0) := by
  refine ⟨?_, ?_, ?_⟩
  · intro snap r hr
    simp only [Engine.revenue_reconciliation] at hr
    replace hr := List.mem_of_mem_take hr
    rw [mem_sortByB] at hr
    simp only [Engine.monthly_totals, List.mem_map] at hr
    obtain ⟨m, hm, rfl⟩ := hr
    refine ⟨rfl, fun hb => ?_, fun hb => ?_⟩
    · dsimp only at hb ⊢
      rw [if_pos hb]
    · dsimp only at hb ⊢
      rw [if_neg hb]
  · intro snap m hc hb
    have hkeys : m ∈ ((Engine.combined_revenue snap).map (fun q => q.month)).dedup := by
      rw [List.mem_dedup]
      simp only [Engine.combined_revenue, List.map_append, List.mem_append, List.map_map]
      exact Or.inl (by simpa [Function.comp] using List.mem_map_of_mem (fun x => x) hc)
    refine ⟨_, List.mem_map_of_mem _ hkeys, rfl, ?_⟩
    apply List.sum_eq_zero
    intro x hx
    simp only [List.mem_map] at hx
    obtain ⟨q, hq, rfl⟩ := hx
    obtain ⟨hqmem, hqm⟩ := List.mem_filter.mp hq
    simp only [Engine.combined_revenue, List.mem_append, List.mem_map] at hqmem
    rcases hqmem with ⟨x0, hx0, rfl⟩ | ⟨x0, hx0, rfl⟩
    · rfl
    · have hx0m : x0 = m := by simpa using hqm
      subst hx0m
      exact absurd hx0 hb
  · intro snap m hbk hc
    have hkeys : m ∈ ((Engine.combined_revenue snap).map (fun q => q.month)).dedup := by
      rw [List.mem_dedup]
      simp only [Engine.combined_revenue, List.map_append, List.mem_append, List.map_map]
      exact Or.inr (by simpa [Function.comp] using List.mem_map_of_mem (fun x => x) hbk)
    refine ⟨_, List.mem_map_of_mem _ hkeys, rfl, ?_⟩
    apply List.sum_eq_zero
    intro x hx
    simp only [List.mem_map] at hx
    obtain ⟨q, hq, rfl⟩ := hx
    obtain ⟨hqmem, hqm⟩ := List.mem_filter.mp hq
    simp only [Engine.combined_revenue, List.mem_append, List.mem_map] at hqmem
    rcases hqmem with ⟨x0, hx0, rfl⟩ | ⟨x0, hx0, rfl⟩
    · have hx0m : x0 = m := by simpa using hqm
      subst hx0m
      exact absurd hx0 hc
    · rfl

set_option maxRecDepth 8000 in
/-- Witness for C6: on the booked-only snapshot sC6b, row rC6 of the result
satisfies the variance and sentinel equations, and the May 2024 month,
present only on the booked side, appears with cash_collected 0. -/
theorem C6_reconciliation_outer_union_witness :
    (rC6.variance = rC6.cash_collected - rC6.booked_revenue ∧
     (rC6.booked_revenue = 0 → rC6.variance_pct = none) ∧
     (rC6.booked_revenue ≠ 0 → rC6.variance_pct =
       some (roundScale 2 ((rC6.cash_collected - rC6.booked_revenue) / rC6.booked_revenue * 100)))) ∧
    (∃ r ∈ Engine.monthly_totals sC6b,
      r.month = Calendar.daysFromCivil 2024 5 1 ∧ r.cash_collected = 0) :=
  ⟨C6_reconciliation_outer_union.1 sC6b rC6 (by decide),
   C6_reconciliation_outer_union.2.2 sC6b (Calendar.daysFromCivil 2024 5 1)
     (by decide) (by decide)⟩

set_option maxRecDepth 8000 in
/-- C6 counterexample: the degenerate month of sC6 (one Hard Decline
transaction, one Churned subscription, so zero Success transactions and
zero qualifying subscriptions) produces no reconciliation row at all rather
than a zero row; and the deployment copy reports a booked-only month with
cash_collected NULL, not 0, through its FULL OUTER JOIN. -/
theorem C6_degenerate_month_has_no_row :
    Engine.revenue_reconciliation sC6 = [] ∧
    sC6.transactions ≠ [] ∧
    EngineOpt.revenue_reconciliation sC6b =
      [{ month := Calendar.daysFromCivil 2024 5 1, cash_collected := none,
         booked_revenue := some 9, variance := none, variance_pct := none,
         successful_payments := none }] :=
  ⟨by decide, by decide, by decide⟩


/-- C8 (corrected): the src/src loader succeeds exactly when the users file
exists and every column named in its three SELECT lists is present (so a
transactions file without error_code fails the load, with a generic DuckDB
binder error, there being no SchemaError class anywhere in the repository),
and it performs no emptiness validation; the deployment loader is a no-op
when data is already loaded and otherwise succeeds exactly when the three
files exist and the three loaded tables are nonempty, raising RuntimeError
(not a ValidationError class) otherwise, with no column requirement at all. -/
theorem C8_loader_contract :
    (∀ u s t : Engine.CsvFile, Engine.load_data u s t = Except.ok () ↔
      (u.present = true ∧
       Engine.requiredUserCols.all (fun c => u.cols.contains c) = true ∧
       s.present = true ∧
       Engine.requiredSubCols.all (fun c => s.cols.contains c) = true ∧
       t.present = true ∧
       Engine.requiredTxCols.all (fun c => t.cols.contains c) = true)) ∧
    (∀ u s t : Engine.CsvFile, EngineOpt.load_data true u s t = Except.ok ()) ∧
    (∀ u s t : Engine.CsvFile, EngineOpt.load_data false u s t = Except.ok () ↔
      (u.present = true ∧ s.present = true ∧ t.present = true ∧
       u.rowCount ≠ 0 ∧ s.rowCount ≠ 0 ∧ t.rowCount ≠ 0)) := by
  refine ⟨?_, ?_, ?_⟩
  · intro u s t
    simp only [Engine.load_data]
    split_ifs with h1 h2 h3 h4 h5 h6 <;> simp_all
  · intro u s t
    simp [EngineOpt.load_data]
  · intro u s t
    simp only [EngineOpt.load_data, if_neg Bool.false_ne_true]
    split_ifs with h1 h2
    · rcases h1 with h | h | h <;> simp_all
    · rcases h2 with h | h | h <;> simp_all
    · push_neg at h1 h2
      simp_all

/-- Witness for C8: the loader contract instantiated on concrete files. -/
theorem C8_loader_contract_witness :
    Engine.load_data userFileOk subFileOk txFileOk = Except.ok () ∧
    EngineOpt.load_data true userFileEmpty subFileEmpty txFileEmpty = Except.ok () ∧
    EngineOpt.load_data false userFileOk subFileOk txFileOk = Except.ok () :=
  ⟨(C8_loader_contract.1 userFileOk subFileOk txFileOk).mpr (by decide),
   C8_loader_contract.2.1 userFileEmpty subFileEmpty txFileEmpty,
   (C8_loader_contract.2.2 userFileOk subFileOk txFileOk).mpr (by decide)⟩

/-- C8 counterexample: the deployment loader accepts a transactions file
missing the error_code column (no SchemaError, no rejection at all), and
the src/src loader accepts three present-but-empty tables (no
ValidationError, no emptiness check). The src/src loader does fail on the
missing column, but with its generic DuckDB error. -/
theorem C8_missing_error_code_not_rejected :
    EngineOpt.load_data false userFileOk subFileOk txFileNoErrorCode = Except.ok () ∧
    Engine.load_data userFileEmpty subFileEmpty txFileEmpty = Except.ok () ∧
    Engine.load_data userFileOk subFileOk txFileNoErrorCode =
      Except.error Engine.V1LoadError.duckdbError :=
  ⟨rfl, rfl, rfl⟩


/-- Sums of mapped values over a filtered list are invariant under the
ORDER BY model. -/
theorem sum_filter_sortByB (le : α → α → Bool) (p : α → Bool) (f : α → Nat) (l : List α) :
    (((sortByB le l).filter p).map f).sum = ((l.filter p).map f).sum :=
  (((perm_sortByB le l).filter p).map f).sum_eq

/-- Partition identity of GROUP BY: summing the per-key counts over the
deduplicated key list recovers the number of rows. -/
theorem sum_countP_dedup {β : Type} [DecidableEq β] (l : List α) (f : α → β) :
    (((l.map f).dedup).map (fun b => l.countP (fun x => decide (f x = b)))).sum = l.length := by
  have h := List.sum_map_count_dedup_eq_length (l.map f)
  rw [List.length_map] at h
  rw [← h]
  refine congrArg List.sum (List.map_congr_left fun b _ => ?_)
  rw [List.count_eq_countP, List.countP_map]
  rfl

/-- C7: get_sankey_data conserves weight for every snapshot whose gateway
names avoid the fixed stage labels Attempt and Settled (per the data model
the gateway column is an enum of payment providers): the edges leaving
Attempt carry exactly the filtered transaction count, and the edges into
Settled carry exactly the filtered Success count. -/
theorem C7_sankey_weight_conservation :
    ∀ (cf : Option String) (txs : List Transaction),
      (∀ t ∈ txs, ¬(t.gateway = "Attempt" ∨ t.gateway = "Settled")) →
      ((((Engine.get_sankey_data cf txs).filter (fun e => decide (e.source = "Attempt"))).map
          (fun e => e.value)).sum = (Engine.sankeyScope cf txs).length ∧
       (((Engine.get_sankey_data cf txs).filter (fun e => decide (e.target = "Settled"))).map
          (fun e => e.value)).sum =
         Engine.countStatus "Success" (Engine.sankeyScope cf txs)) := by
  intro cf txs hgw
  have hsub : ∀ t ∈ Engine.sankeyScope cf txs, t ∈ txs := by
    intro t ht
    cases cf with
    | none => exact ht
    | some c => exact (List.mem_filter.mp ht).1
  simp only [Engine.get_sankey_data, sum_filter_sortByB, List.filter_append,
    List.map_append, List.sum_append]
  set scope := Engine.sankeyScope cf txs with hscope
  constructor
  · have he1 : (((scope.map (fun t => t.gateway)).dedup).map (fun g =>
        ({ source := "Attempt", target := g,
           value := scope.countP (fun t => decide (t.gateway = g)) } : Engine.SankeyEdge))).filter
        (fun e => decide (e.source = "Attempt")) =
        ((scope.map (fun t => t.gateway)).dedup).map (fun g =>
        ({ source := "Attempt", target := g,
           value := scope.countP (fun t => decide (t.gateway = g)) } : Engine.SankeyEdge)) := by
      refine List.filter_eq_self.mpr fun e he => ?_
      simp only [List.mem_map] at he
      obtain ⟨g, hg, rfl⟩ := he
      simp
    have he2 : ((scope.map (fun t => (t.gateway, t.status))).dedup.filterMap (fun k =>
        (Engine.statusLabel k.2).map (fun lbl =>
          ({ source := k.1, target := lbl,
             value := scope.countP (fun t => decide (t.gateway = k.1 ∧ t.status = k.2)) } :
            Engine.SankeyEdge)))).filter (fun e => decide (e.source = "Attempt")) = [] := by
      refine List.filter_eq_nil_iff.mpr fun e he => ?_
      simp only [List.mem_filterMap] at he
      obtain ⟨k, hk, hsome⟩ := he
      rw [Option.map_eq_some'] at hsome
      obtain ⟨lbl, hlbl, rfl⟩ := hsome
      simp only [List.mem_dedup, List.mem_map] at hk
      obtain ⟨t, ht, hkt⟩ := hk
      have hne : t.gateway ≠ "Attempt" := fun h => hgw t (hsub t ht) (Or.inl h)
      subst hkt
      simpa using hne
    rw [he1, he2]
    have he3 : (List.filter (fun e => decide (e.source = "Attempt"))
        [({ source := "Authorized", target := "Settled",
            value := Engine.countStatus "Success" scope } : Engine.SankeyEdge)]) = [] := by
      simp
    rw [he3]
    simp only [List.map_map, List.map_nil, List.sum_nil, Nat.add_zero]
    have := sum_countP_dedup (β := String) scope (fun t => t.gateway)
    simpa [Function.comp] using this
  · have he1 : (((scope.map (fun t => t.gateway)).dedup).map (fun g =>
        ({ source := "Attempt", target := g,
           value := scope.countP (fun t => decide (t.gateway = g)) } : Engine.SankeyEdge))).filter
        (fun e => decide (e.target = "Settled")) = [] := by
      refine List.filter_eq_nil_iff.mpr fun e he => ?_
      simp only [List.mem_map] at he
      obtain ⟨g, hg, rfl⟩ := he
      simp only [List.mem_dedup, List.mem_map] at hg
      obtain ⟨t, ht, hgt⟩ := hg
      have hne : t.gateway ≠ "Settled" := fun h => hgw t (hsub t ht) (Or.inr h)
      subst hgt
      simpa using hne
    have he2 : ((scope.map (fun t => (t.gateway, t.status))).dedup.filterMap (fun k =>
        (Engine.statusLabel k.2).map (fun lbl =>
          ({ source := k.1, target := lbl,
             value := scope.countP (fun t => decide (t.gateway = k.1 ∧ t.status = k.2)) } :
            Engine.SankeyEdge)))).filter (fun e => decide (e.target = "Settled")) = [] := by
      refine List.filter_eq_nil_iff.mpr fun e he => ?_
      simp only [List.mem_filterMap] at he
      obtain ⟨k, hk, hsome⟩ := he
      rw [Option.map_eq_some'] at hsome
      obtain ⟨lbl, hlbl, rfl⟩ := hsome
      simp only [Engine.statusLabel] at hlbl
      split_ifs at hlbl <;> simp_all <;> (subst hlbl; decide)
    rw [he1, he2]
    simp


/-- Witness for C7: the conservation equalities on the one-transaction
table without a country filter. -/
theorem C7_sankey_weight_conservation_witness :
    (((Engine.get_sankey_data none txs1).filter (fun e => decide (e.source = "Attempt"))).map
        (fun e => e.value)).sum = (Engine.sankeyScope none txs1).length ∧
    (((Engine.get_sankey_data none txs1).filter (fun e => decide (e.target = "Settled"))).map
        (fun e => e.value)).sum = Engine.countStatus "Success" (Engine.sankeyScope none txs1) :=
  C7_sankey_weight_conservation none txs1 (by decide)

/-- Membership characterisation of the user_transaction_months CTE. -/
theorem mem_user_transaction_months {snap : Snapshot} {p : Int × Nat} :
    p ∈ Engine.user_transaction_months snap ↔
      ∃ t ∈ snap.transactions, t.status = "Success" ∧
        ∃ s ∈ snap.subscriptions, s.sub_id = t.sub_id ∧
          p = (Calendar.dateTruncMonth t.tx_date, s.user_id) := by
  simp only [Engine.user_transaction_months, List.mem_dedup, List.mem_flatMap,
    List.mem_map, List.mem_filter, decide_eq_true_eq]
  constructor
  · rintro ⟨t, ⟨ht, hts⟩, s, ⟨hs, hss⟩, rfl⟩
    exact ⟨t, ht, hts, s, hs, hss, rfl⟩
  · rintro ⟨t, ht, hts, s, hs, hss, rfl⟩
    exact ⟨t, ⟨ht, hts⟩, s, ⟨hs, hss⟩, rfl⟩

/-- Membership characterisation of the matched retention join rows. -/
theorem mem_retentionJoinRows {snap : Snapshot} {r : Int × Int × Nat} :
    r ∈ Engine.retentionJoinRows snap ↔
      ∃ u ∈ snap.users, ∃ p ∈ Engine.user_transaction_months snap,
        p.2 = u.user_id ∧
        0 ≤ Calendar.monthIndex p.1 -
            Calendar.monthIndex (Calendar.dateTruncMonth u.signup_date) ∧
        Calendar.monthIndex p.1 -
            Calendar.monthIndex (Calendar.dateTruncMonth u.signup_date) ≤ 12 ∧
        r = (Calendar.dateTruncMonth u.signup_date,
          Calendar.monthIndex p.1 -
            Calendar.monthIndex (Calendar.dateTruncMonth u.signup_date),
          u.user_id) := by
  simp only [Engine.retentionJoinRows, List.mem_flatMap, List.mem_map, List.mem_filter,
    decide_eq_true_eq]
  constructor
  · rintro ⟨u, hu, p, ⟨hp, h1, h2, h3⟩, rfl⟩
    exact ⟨u, hu, p, hp, h1, h2, h3, rfl⟩
  · rintro ⟨u, hu, p, hp, h1, h2, h3, rfl⟩
    exact ⟨u, hu, p, ⟨hp, h1, h2, h3⟩, rfl⟩

/-- The distinct-user count of a retention group equals the spec-side
retained-user count of that cohort and offset. -/
theorem retained_eq_spec (snap : Snapshot) (m k : Int) (hk0 : 0 ≤ k) (hk12 : k ≤ 12) :
    ((((Engine.retentionJoinRows snap).filter
        (fun r => decide ((r.1, r.2.1) = (m, k)))).map (fun r => r.2.2)).dedup).length =
      spec_retained_users snap m k := by
  unfold spec_retained_users
  rw [← List.card_toFinset, ← List.card_toFinset]
  have hset : ((((Engine.retentionJoinRows snap).filter
      (fun r => decide ((r.1, r.2.1) = (m, k)))).map (fun r => r.2.2))).toFinset =
      ((snap.users.filter (fun u =>
        decide (Calendar.dateTruncMonth u.signup_date = m) &&
        snap.transactions.any (fun t =>
          decide (t.status = "Success") &&
          snap.subscriptions.any (fun s =>
            decide (s.sub_id = t.sub_id ∧ s.user_id = u.user_id)) &&
          decide (Calendar.monthIndex (Calendar.dateTruncMonth t.tx_date) -
            Calendar.monthIndex m = k)))).map (fun u => u.user_id)).toFinset := by
    ext uid
    simp only [List.mem_toFinset, List.mem_map, List.mem_filter, Bool.and_eq_true,
      List.any_eq_true, decide_eq_true_eq]
    constructor
    · rintro ⟨r, ⟨hr, hkey⟩, rfl⟩
      obtain ⟨u, hu, p, hp, hpu, h0, h12, rfl⟩ := mem_retentionJoinRows.mp hr
      obtain ⟨t, ht, hts, sub, hsub, hss, rfl⟩ := mem_user_transaction_months.mp hp
      simp only [Prod.mk.injEq] at hkey
      refine ⟨u, ⟨hu, hkey.1, t, ht, ⟨hts, sub, hsub, hss, hpu⟩, ?_⟩, rfl⟩
      rw [← hkey.1]
      exact hkey.2
    · rintro ⟨u, ⟨hu, hm, t, ht, ⟨hts, sub, hsub, hss, huid⟩, hdiff⟩, rfl⟩
      have hp : (Calendar.dateTruncMonth t.tx_date, sub.user_id) ∈
          Engine.user_transaction_months snap :=
        mem_user_transaction_months.mpr ⟨t, ht, hts, sub, hsub, hss, rfl⟩
      have hdiffm : Calendar.monthIndex (Calendar.dateTruncMonth t.tx_date) -
          Calendar.monthIndex (Calendar.dateTruncMonth u.signup_date) = k := by
        rw [hm]; exact hdiff
      refine ⟨(Calendar.dateTruncMonth u.signup_date,
        Calendar.monthIndex (Calendar.dateTruncMonth t.tx_date) -
          Calendar.monthIndex (Calendar.dateTruncMonth u.signup_date), u.user_id),
        ⟨mem_retentionJoinRows.mpr ⟨u, hu, (Calendar.dateTruncMonth t.tx_date, sub.user_id),
          hp, huid, ?_, ?_, rfl⟩, ?_⟩, rfl⟩
      · rw [hdiffm]; exact hk0
      · rw [hdiffm]; exact hk12
      · simp [hm, hdiff]
  rw [hset]

/-- C5 (amended, src/src engine): every retention row reads its denominator
from the cohort_sizes CTE, the distinct-user count of the users assigned to
the cohort month by signup date, fixed per cohort and positive; the
numerator is exactly the spec-side count of distinct cohort users with at
least one Success transaction at that month offset; and the rate is the
rounded ratio of the two. The deployment copy violates this (see the
counterexample). -/
theorem C5_retention_denominator_and_numerator :
    ∀ (cm today : Int) (snap : Snapshot) (r : Engine.RetentionRow),
      r ∈ Engine.cohort_retention_analysis cm today snap →
      r.cohort_size = Engine.cohort_size snap.users r.cohort_month ∧
      0 < r.cohort_size ∧
      r.retained_users = spec_retained_users snap r.cohort_month r.months_since_signup ∧
      r.retention_rate_pct =
        some (roundScale 1 ((r.retained_users : Rat) / (r.cohort_size : Rat) * 100)) := by
  intro cm today snap r hr
  simp only [Engine.cohort_retention_analysis] at hr
  rw [mem_sortByB, List.mem_filter] at hr
  obtain ⟨hr, hrange⟩ := hr
  simp only [List.mem_map] at hr
  obtain ⟨k, hk, rfl⟩ := hr
  have hk2 := hk
  simp only [List.mem_dedup, List.mem_map] at hk2
  obtain ⟨row0, hrow0, hkey⟩ := hk2
  obtain ⟨u, hu, p, hp, hpu, h0, h12, hrow0eq⟩ := mem_retentionJoinRows.mp hrow0
  have hk1 : k.1 = Calendar.dateTruncMonth u.signup_date := by
    rw [← hkey, hrow0eq]
  have hk2eq : k.2 = Calendar.monthIndex p.1 -
      Calendar.monthIndex (Calendar.dateTruncMonth u.signup_date) := by
    rw [← hkey, hrow0eq]
  have hu2 : u ∈ snap.users.filter (fun v =>
      decide (Calendar.dateTruncMonth v.signup_date = k.1)) :=
    List.mem_filter.mpr ⟨hu, by simp [hk1]⟩
  have hpos : 0 < Engine.cohort_size snap.users k.1 :=
    List.length_pos.mpr (List.ne_nil_of_mem (List.mem_dedup.mpr
      (List.mem_map_of_mem _ hu2)))
  refine ⟨rfl, hpos, ?_, ?_⟩
  · exact retained_eq_spec snap k.1 k.2 (hk2eq ▸ h0) (hk2eq ▸ h12)
  · dsimp only
    rw [if_neg (Nat.pos_iff_ne_zero.mp hpos)]

set_option maxRecDepth 8000 in
/-- Witness for C5: the single row the engine returns on sC3 satisfies all
four conjuncts. -/
theorem C5_retention_denominator_and_numerator_witness :
    rC5w.cohort_size = Engine.cohort_size sC3.users rC5w.cohort_month ∧
    0 < rC5w.cohort_size ∧
    rC5w.retained_users = spec_retained_users sC3 rC5w.cohort_month rC5w.months_since_signup ∧
    rC5w.retention_rate_pct =
      some (roundScale 1 ((rC5w.retained_users : Rat) / (rC5w.cohort_size : Rat) * 100)) :=
  C5_retention_denominator_and_numerator 12 todayMid2024 sC3 rC5w (by decide)

set_option maxRecDepth 8000 in
/-- C5 counterexample: on sC5 the deployment retention query reports 100
percent at (January 2024, offset 0) with one retained user, although the
January cohort counts 2 users at formation by signup date, so the claimed
ratio would be 50; the deployment denominator is the first-offset
subscription count, not the cohort size at formation. -/
theorem C5_deployment_denominator_differs :
    ((EngineOpt.cohort_retention_analysis 12 todayMid2024 sC5).any (fun r =>
      decide (r.cohort_month = Calendar.daysFromCivil 2024 1 1 ∧ r.months_since_signup = 0 ∧
        r.retained_users = 1 ∧ r.retention_rate_pct = some 100)) = true) ∧
    Engine.cohort_size sC5.users (Calendar.daysFromCivil 2024 1 1) = 2 ∧
    ((1 : Rat) / (2 : Rat) * 100 = 50) ∧ ((100 : Rat) ≠ 50) :=
  ⟨by decide, by decide, by decide, by decide⟩

end
